import Mathlib

/-
  Verification of the loan-pricing engine in src/Pricing.py (an HTML page
  whose script block implements the engine in JavaScript).

  Modelling conventions of this shallow embedding:
  * JavaScript numbers are modelled as exact rationals (ℚ).
  * `f2` (the source's two-decimal rounding helper built on `toFixed(2)`)
    is modelled as round-half-up to two decimals; `Math.round` as
    round-half-up to an integer (this is exactly what `Math.round` does).
  * The `NaN` that the compute handler deliberately stores in `ltvPct` for
    utilization products is modelled as `Option.none`; the `isNaN` guard in
    `lgdFromProductLtv` becomes `Option.getD _ 0`.
  * `parseFloat(x) || 0` / `parseInt(x) || d` input parsing is modelled by
    `parseNum` / `parseIntOr` over `Option` inputs (`none` = missing,
    empty, or unparseable field; the `||` also maps a parsed 0 to the
    default, which `parseIntOr` reproduces).
-/

namespace Pricing

/-! ## Static tables (lines 199-217 of the source) -/

inductive Product where
  | assetBackedLoan | termLoan | exportFinance
  | workingCapital | tradeFinance | supplyChainFinance | vendorFinance
  deriving DecidableEq

inductive Industry where
  | construction | realEstate | mining | hospitality | retail | manufacturing
  | trading | logistics | oilAndGas | healthcare | utilitiesInd | agriculture
  deriving DecidableEq

/-- `PRODUCTS_FUND` membership (line 199): Asset Backed Loan, Term Loan and
Export Finance are fund-based; the rest are utilization-based. -/
def productIsFund : Product → Bool
  | .assetBackedLoan | .termLoan | .exportFinance => true
  | _ => false

/-- `productFactor` table (lines 202-205). -/
def productFactor : Product → ℚ
  | .assetBackedLoan => 1.35
  | .termLoan => 1.20
  | .exportFinance => 1.10
  | .vendorFinance => 0.95
  | .supplyChainFinance => 0.90
  | .tradeFinance => 0.85
  | .workingCapital => 0.95

/-- `industryFactor` table (lines 207-211). -/
def industryFactor : Industry → ℚ
  | .construction => 1.40
  | .realEstate => 1.30
  | .mining => 1.30
  | .hospitality => 1.25
  | .retail => 1.15
  | .manufacturing => 1.10
  | .trading => 1.05
  | .logistics => 1.00
  | .oilAndGas => 0.95
  | .healthcare => 0.90
  | .utilitiesInd => 0.85
  | .agriculture => 1.15

/-- `uMedMap` industry median utilization table (lines 213-217). -/
def uMedMap : Industry → ℚ
  | .trading => 0.65
  | .manufacturing => 0.55
  | .construction => 0.40
  | .logistics => 0.60
  | .retail => 0.50
  | .healthcare => 0.45
  | .hospitality => 0.35
  | .oilAndGas => 0.50
  | .realEstate => 0.30
  | .utilitiesInd => 0.55
  | .mining => 0.45
  | .agriculture => 0.40

/-! ## Numeric helpers -/

/-- `clamp(x, lo, hi) = Math.max(lo, Math.min(x, hi))` (lines 220-222). -/
def clamp (x lo hi : ℚ) : ℚ := max lo (min x hi)

/-- `Math.round`: round half up to an integer (kept in ℚ, as in JS). -/
def jround (x : ℚ) : ℚ := ((⌊x + 1/2⌋ : ℤ) : ℚ)

/-- `f2(x)`: round to two decimals (lines 182-188), modelled round-half-up. -/
def f2 (x : ℚ) : ℚ := ((⌊100 * x + 1/2⌋ : ℤ) : ℚ) / 100

/-! ## Risk factors (lines 224-244) -/

/-- `malaaFactor(score)` (lines 224-226). -/
def malaaFactor (score : ℚ) : ℚ :=
  clamp (1.45 - (score - 300) * (0.90 / 600)) 0.55 1.45

/-- `ltvFactor(ltv)` (lines 228-230). -/
def ltvFactor (ltv : ℚ) : ℚ := clamp (0.55 + 0.0075 * ltv) 0.80 1.50

/-- `wcsFactor(wc, sales)` (lines 232-236). -/
def wcsFactor (wc sales : ℚ) : ℚ :=
  if sales ≤ 0 then 1.20
  else clamp (0.70 + 1.00 * min (wc / sales) 1.2) 0.70 1.70

/-- `compositeRisk` (lines 238-244): `clamp(pf*inf*mf*rf, 0.4, 3.5)` where
`rf` is the LTV factor for fund products and the WC/sales factor
otherwise. -/
def compositeRisk (product : Product) (industry : Industry)
    (malaa ltv wc sales : ℚ) (fund : Bool) : ℚ :=
  clamp (productFactor product * industryFactor industry * malaaFactor malaa *
    (if fund then ltvFactor ltv else wcsFactor wc sales)) 0.4 3.5

/-! ## PD / LGD (lines 246-278) -/

/-- The piecewise-linear interpolation inside `pdFromRisk` (lines 247-262),
with knots `xs = [0.4, 1.0, 2.0, 3.5]`, `ys = [0.3, 1.0, 3.0, 6.0]`.  The
JS loop scans the segments in order; unreached earlier branches make the
lower bound of each segment automatic. -/
def pdInterp (r : ℚ) : ℚ :=
  if r ≤ 0.4 then 0.3
  else if 3.5 ≤ r then 6.0
  else if r ≤ 1.0 then 0.3 + (r - 0.4) / (1.0 - 0.4) * (1.0 - 0.3)
  else if r ≤ 2.0 then 1.0 + (r - 1.0) / (2.0 - 1.0) * (3.0 - 1.0)
  else 3.0 + (r - 2.0) / (3.5 - 2.0) * (6.0 - 3.0)

/-- `pdFromRisk(r, stage)` (lines 246-267): interpolated PD, stage-2
multiplier 2.5, stage-3 multiplier 6.0, clamped to [0.10, 60.0]. -/
def pdFromRisk (r : ℚ) (stage : ℤ) : ℚ :=
  let pd0 := pdInterp r
  let pd1 := if stage = 2 then pd0 * 2.5 else pd0
  let pd2 := if stage = 3 then pd1 * 6.0 else pd1
  clamp pd2 0.10 60.0

/-- `lgdFromProductLtv(prod, ltv, isFund)` (lines 269-278); `ltv = none`
models the `NaN` passed for utilization products (`isNaN` check, line 275). -/
def lgdFromProductLtv (prod : Product) (ltv : Option ℚ) (fund : Bool) : ℚ :=
  let base : ℚ :=
    if prod = .termLoan then 38
    else if prod = .exportFinance then 35
    else if fund = false then 30
    else 32
  let adj0 := max 0 ((ltv.getD 0) - 50.0) * 0.25
  let adj := if fund = false then adj0 + 8.0 else adj0
  clamp (base + adj) 25.0 70.0

/-! ## Pricing buckets and floors (lines 280-304) -/

/-- `malaaLabel(score)` result (lines 280-285). -/
inductive ScoreLabel where
  | highPoor | mediumHigh | medium | lowGood
  deriving DecidableEq

def malaaLabel (score : ℤ) : ScoreLabel :=
  if score < 500 then .highPoor
  else if score < 650 then .mediumHigh
  else if score < 750 then .medium
  else .lowGood

inductive Bucket where
  | low | medium | high
  deriving DecidableEq

/-- `BUCKET_MULT` (line 289). -/
def bucketMult : Bucket → ℚ
  | .low => 0.90
  | .medium => 1.00
  | .high => 1.25

/-- `BUCKET_BAND_BPS` (line 290). -/
def bucketBandBps : Bucket → ℚ
  | .low => 60
  | .medium => 90
  | .high => 140

/-- `BUCKET_FLOOR_BPS` (line 291). -/
def bucketFloorBps : Bucket → ℚ
  | .low => 150
  | .medium => 225
  | .high => 325

/-- `MALAA_FLOOR_BPS` (line 292). -/
def malaaFloorBps : ScoreLabel → ℚ
  | .highPoor => 175
  | .mediumHigh => 125
  | .medium => 75
  | .lowGood => 0

/-- `industryFloorAddon(indFac)` (lines 294-296). -/
def industryFloorAddon (indFac : ℚ) : ℚ :=
  if 1.25 ≤ indFac then 100 else if 1.10 ≤ indFac then 50 else 0

/-- `productFloorAddon(prod)` (lines 298-300). -/
def productFloorAddon : Product → ℚ
  | .assetBackedLoan => 125
  | .termLoan => 75
  | .exportFinance => 75
  | _ => 0

/-- `baseSpreadFromRisk(risk)` (lines 302-304). -/
def baseSpreadFromRisk (risk : ℚ) : ℚ := 75 + 350 * (risk - 1.0)

/-! ## Fund-based cash-flow metrics (lines 307-357) -/

/-- The annuity EMI formula used at lines 311 and 338:
`P * i * (1+i)^n / ((1+i)^n - 1)`. -/
def annuityEMI (P i : ℚ) (n : ℕ) : ℚ :=
  P * i * (1 + i) ^ n / ((1 + i) ^ n - 1)

/-- The amortization loop of `fundFirstYearMetrics` (lines 315-326): after
`m` months, returns `(bal, sumNet12, sumBal12)`. -/
def fundSim (P EMI i feesPct cofPct provPct opexPct : ℚ) : ℕ → ℚ × ℚ × ℚ
  | 0 => (P, 0, 0)
  | m + 1 =>
      let s := fundSim P EMI i feesPct cofPct provPct opexPct m
      let bal := s.1
      let interest := bal * i
      let fee := P * (feesPct / 100 / 12)
      let funding := bal * (cofPct / 100 / 12)
      let prov := bal * (provPct / 100 / 12)
      let opex := bal * (opexPct / 100 / 12)
      let net := interest + fee - (funding + prov + opex)
      let principal := EMI - interest
      (max (bal - principal) 0, s.2.1 + net, s.2.2 + bal)

structure FundMetrics where
  emi : ℚ
  niiAnnual : ℚ
  aea12 : ℚ
  nimPct : ℚ
  deriving DecidableEq

/-- `fundFirstYearMetrics(P, tenorM, repRate, feesPct, cofPct, provPct,
opexPct)` (lines 307-332).  Note the early return `[0.0, 0.0, 1.0, 0.0]`
when `i ≤ 0` (so in particular when `repRate = 0`), `tenorM ≤ 0` or
`P ≤ 0`. -/
def fundFirstYearMetrics (P : ℚ) (tenorM : ℤ)
    (repRate feesPct cofPct provPct opexPct : ℚ) : FundMetrics :=
  let i := repRate / 100 / 12
  if i ≤ 0 ∨ tenorM ≤ 0 ∨ P ≤ 0 then ⟨0, 0, 1, 0⟩
  else
    let n := tenorM.toNat
    let EMI := annuityEMI P i n
    let months := min 12 n
    let s := fundSim P EMI i feesPct cofPct provPct opexPct months
    let AEA12 := max (s.2.2 / (months : ℚ)) (1 / 1000000000)
    let NIIannual := s.2.1
    let NIMpct := NIIannual / AEA12 * 100
    ⟨f2 EMI, f2 NIIannual, f2 AEA12, f2 NIMpct⟩

/-- Breakeven outcome: either a month count or the string sentinel
`"Breakeven not within the tenor"`. -/
inductive BE where
  | months (m : ℤ)
  | notWithinTenor
  deriving DecidableEq

/-- The loop of `fundBreakevenMonths` (lines 343-354): `fuel` months left,
current `bal`ance, `cum`ulative net, current month index `m`; returns the
first month at which the cumulative net is non-negative. -/
def fundBreakevenGo (P EMI i feesPct cofPct provPct opexPct : ℚ) :
    ℕ → ℚ → ℚ → ℤ → BE
  | 0, _, _, _ => .notWithinTenor
  | fuel + 1, bal, cum, m =>
      let interest := bal * i
      let fee := P * (feesPct / 100 / 12)
      let funding := bal * (cofPct / 100 / 12)
      let prov := bal * (provPct / 100 / 12)
      let opex := bal * (opexPct / 100 / 12)
      let net := interest + fee - (funding + prov + opex)
      let cum2 := cum + net
      let bal2 := max (bal - (EMI - interest)) 0
      if 0 ≤ cum2 then .months m
      else fundBreakevenGo P EMI i feesPct cofPct provPct opexPct fuel bal2
        cum2 (m + 1)

/-- `fundBreakevenMonths` (lines 334-357): simulate over the full tenor
starting the cumulative net at `-upfrontCostPct/100 · P`. -/
def fundBreakevenMonths (P : ℚ) (tenorM : ℤ)
    (ratePct feesPct cofPct provPct opexPct upfrontCostPct : ℚ) : BE :=
  let i := ratePct / 100 / 12
  if i ≤ 0 ∨ tenorM ≤ 0 ∨ P ≤ 0 then .notWithinTenor
  else
    let EMI := annuityEMI P i tenorM.toNat
    fundBreakevenGo P EMI i feesPct cofPct provPct opexPct tenorM.toNat P
      (-(upfrontCostPct / 100 * P)) 1

/-! ## Utilization-based metrics (lines 359-373 and 540-545) -/

structure UtilMetrics where
  ead : ℚ
  nimPct : ℚ
  niiAnnual : ℚ
  be : BE
  uPct : ℚ
  deriving DecidableEq

/-- `utilMetrics(limitOrWc, industry, repRate, feesPct, cofPct, provPct,
opexPct, upfrontCostPct)` (lines 359-373).  Note: no tenor argument —
the breakeven month it returns is not checked against the tenor. -/
def utilMetrics (limitOrWc : ℚ) (industry : Industry)
    (repRate feesPct cofPct provPct opexPct upfrontCostPct : ℚ) : UtilMetrics :=
  let u := uMedMap industry
  let EAD := max limitOrWc 0 * u
  let marginPct := repRate + feesPct - (cofPct + provPct + opexPct)
  let NIIannual := marginPct / 100 * EAD
  let C0 := upfrontCostPct / 100 * max limitOrWc 0
  if 0 < marginPct ∧ 0 < EAD then
    let mBe := ⌈C0 / (NIIannual / 12)⌉
    ⟨f2 EAD, f2 marginPct, f2 NIIannual,
      .months (if 0 < mBe then mBe else 1), f2 (u * 100)⟩
  else
    ⟨f2 EAD, f2 marginPct, f2 NIIannual, .notWithinTenor, f2 (u * 100)⟩

/-- `utilBe(rate)` (lines 540-545), the closure used for the min/max-rate
breakevens of utilization products; its captured variables become explicit
arguments here.  This one does check the tenor. -/
def utilBe (loanQuantumOmr : ℚ) (industry : Industry)
    (feesPct cofPct provPct opexPct upfrontCostPct : ℚ)
    (tenorMonths : ℤ) (rate : ℚ) : BE :=
  let margin := rate + feesPct - (cofPct + provPct + opexPct)
  if margin ≤ 0 ∨ loanQuantumOmr ≤ 0 then .notWithinTenor
  else
    let m := ⌈(upfrontCostPct / 100 * loanQuantumOmr) /
      (margin / 100 * (loanQuantumOmr * uMedMap industry) / 12)⌉
    if m ≤ tenorMonths then .months m else .notWithinTenor

/-! ## The compute handler (lines 400-533)

The click handler's locals are modelled as one definition each, taking the
already-parsed market assumptions and loan fields as input.  Display-only
fields of the result rows (EMI decomposition, labels, in-words amounts,
HTML) are not part of the engine and are omitted. -/

structure MarketInputs where
  oiborPct : ℚ
  cofPct : ℚ
  targetNimPct : ℚ
  opexPct : ℚ
  feesDefault : ℚ
  upfrontCostPct : ℚ
  deriving DecidableEq

structure LoanInputs where
  product : Product
  industry : Industry
  malaaScore : ℤ
  stage : ℤ
  tenorMonths : ℤ
  loanQuantumOmr : ℚ
  ltvInput : ℚ
  salesInput : ℚ
  deriving DecidableEq

/-- `feesPct` selection (lines 419-429): fund products pay no fee except
Export Finance; utilization products pay the default fee. -/
def feesFor (mkt : MarketInputs) (p : Product) : ℚ :=
  if productIsFund p then
    (if p = .exportFinance then mkt.feesDefault else 0)
  else mkt.feesDefault

/-- `wcOmr` (lines 421/426): 0 for fund products, the loan quantum for
utilization products. -/
def wcOmrOf (ln : LoanInputs) : ℚ :=
  if productIsFund ln.product then 0 else ln.loanQuantumOmr

/-- `salesOmr` (lines 422/427). -/
def salesOmrOf (ln : LoanInputs) : ℚ :=
  if productIsFund ln.product then 0 else ln.salesInput

/-- `riskBase` (line 432); note the LTV argument is replaced by `60.0` for
utilization products. -/
def riskBase (ln : LoanInputs) : ℚ :=
  compositeRisk ln.product ln.industry (ln.malaaScore : ℚ)
    (if productIsFund ln.product then ln.ltvInput else 60.0)
    (wcOmrOf ln) (salesOmrOf ln) (productIsFund ln.product)

/-- `riskB`, the bucket-scaled risk (line 448). -/
def riskBucket (ln : LoanInputs) (b : Bucket) : ℚ :=
  clamp (riskBase ln * bucketMult b) 0.4 3.5

/-- Per-bucket `pdPct` (line 451). -/
def pdPctB (ln : LoanInputs) (b : Bucket) : ℚ :=
  pdFromRisk (riskBucket ln b) ln.stage

/-- Per-bucket `lgdPct` (line 452): the LTV argument is `ltvPct` for fund
products and the constant `60.0` for utilization products. -/
def lgdPctB (ln : LoanInputs) : ℚ :=
  lgdFromProductLtv ln.product
    (if productIsFund ln.product then some ln.ltvInput else some 60.0)
    (productIsFund ln.product)

/-- Per-bucket `provPct` (line 453). -/
def provPctB (ln : LoanInputs) (b : Bucket) : ℚ :=
  f2 (pdPctB ln b * (lgdPctB ln / 100))

/-- `floors` (line 457). -/
def floorsB (ln : LoanInputs) (b : Bucket) : ℚ :=
  bucketFloorBps b + malaaFloorBps (malaaLabel ln.malaaScore) +
    industryFloorAddon (industryFactor ln.industry) +
    productFloorAddon ln.product

/-- `minCoreSpreadBps` (line 442). -/
def minCoreSpreadBps : ℚ := 125

/-- `baseBps` (line 458). -/
def baseBpsB (ln : LoanInputs) (b : Bucket) : ℚ :=
  max (jround (baseSpreadFromRisk (riskBucket ln b)))
    (max (floorsB ln b) minCoreSpreadBps)

/-- `spreadMinBps` (line 462). -/
def spreadMinB (ln : LoanInputs) (b : Bucket) : ℚ :=
  max (baseBpsB ln b - bucketBandBps b) (max (floorsB ln b) minCoreSpreadBps)

/-- `spreadMaxBps` (line 463). -/
def spreadMaxB (ln : LoanInputs) (b : Bucket) : ℚ :=
  max (baseBpsB ln b + bucketBandBps b) (spreadMinB ln b + 10)

/-- Initial `rateMin` (line 465). -/
def rateMin0 (mkt : MarketInputs) (ln : LoanInputs) (b : Bucket) : ℚ :=
  clamp (mkt.oiborPct + spreadMinB ln b / 100) 5.00 12.00

/-- Initial `rateMax` (line 466). -/
def rateMax0 (mkt : MarketInputs) (ln : LoanInputs) (b : Bucket) : ℚ :=
  clamp (mkt.oiborPct + spreadMaxB ln b / 100) 5.00 12.00

/-- Initial `repRate` midpoint (line 467). -/
def repRate0 (mkt : MarketInputs) (ln : LoanInputs) (b : Bucket) : ℚ :=
  (rateMin0 mkt ln b + rateMax0 mkt ln b) / 2

/-- `repRate` after the fund floor of 6.00 (lines 470-474). -/
def repRate1 (mkt : MarketInputs) (ln : LoanInputs) (b : Bucket) : ℚ :=
  if productIsFund ln.product then max (repRate0 mkt ln b) 6.00
  else repRate0 mkt ln b

/-- `requiredRate` for the strict target-NIM floor (line 477). -/
def requiredRate (mkt : MarketInputs) (ln : LoanInputs) (b : Bucket) : ℚ :=
  f2 (mkt.cofPct + provPctB ln b + mkt.opexPct - feesFor mkt ln.product +
    mkt.targetNimPct)

/-- Final `repRate` after the target-NIM lift (line 478). -/
def repRateF (mkt : MarketInputs) (ln : LoanInputs) (b : Bucket) : ℚ :=
  max (repRate1 mkt ln b) (requiredRate mkt ln b)

/-- `halfBand` (line 481). -/
def halfBandB (b : Bucket) : ℚ := bucketBandBps b / 200

/-- Rebuilt `rateMin` (line 482). -/
def rateMin1 (mkt : MarketInputs) (ln : LoanInputs) (b : Bucket) : ℚ :=
  clamp (repRateF mkt ln b - halfBandB b) 5.00 12.00

/-- Rebuilt `rateMax` before the minimum-gap nudge (line 483). -/
def rateMax1 (mkt : MarketInputs) (ln : LoanInputs) (b : Bucket) : ℚ :=
  clamp (repRateF mkt ln b + halfBandB b) 5.00 12.00

/-- `rateMax` after the minimum-gap nudge (lines 484-486). -/
def rateMax2 (mkt : MarketInputs) (ln : LoanInputs) (b : Bucket) : ℚ :=
  if rateMax1 mkt ln b - rateMin1 mkt ln b < 0.10 then
    clamp (rateMin1 mkt ln b + 0.10) 5.00 12.00
  else rateMax1 mkt ln b

/-- `flMinBps` float over OIBOR (line 489). -/
def flMinB (mkt : MarketInputs) (ln : LoanInputs) (b : Bucket) : ℚ :=
  max (jround ((rateMin1 mkt ln b - mkt.oiborPct) * 100)) minCoreSpreadBps

/-- `flMaxBps` float over OIBOR (line 490). -/
def flMaxB (mkt : MarketInputs) (ln : LoanInputs) (b : Bucket) : ℚ :=
  max (jround ((rateMax2 mkt ln b - mkt.oiborPct) * 100)) (flMinB mkt ln b + 10)

/-- The engine fields of a result row (`rows.push`, lines 510-533 and
557-581). -/
structure Row where
  bucket : Bucket
  flMinBps : ℚ
  flMaxBps : ℚ
  rateMin : ℚ
  repRate : ℚ
  rateMax : ℚ
  provPct : ℚ
  be : BE
  deriving DecidableEq

/-- The representative-rate breakeven pushed into a row: `beRep` from
`fundBreakevenMonths` at `repRate` for fund products (line 499), `beRep`
from `utilMetrics` for utilization products (line 536). -/
def beRepOf (mkt : MarketInputs) (ln : LoanInputs) (b : Bucket) : BE :=
  if productIsFund ln.product then
    fundBreakevenMonths ln.loanQuantumOmr ln.tenorMonths (repRateF mkt ln b)
      (feesFor mkt ln.product) mkt.cofPct (provPctB ln b) mkt.opexPct
      mkt.upfrontCostPct
  else
    (utilMetrics ln.loanQuantumOmr ln.industry (repRateF mkt ln b)
      (feesFor mkt ln.product) mkt.cofPct (provPctB ln b) mkt.opexPct
      mkt.upfrontCostPct).be

/-- One bucket's result row (the per-bucket body of the loop at lines
446-583, restricted to the engine fields). -/
def bucketRow (mkt : MarketInputs) (ln : LoanInputs) (b : Bucket) : Row :=
  { bucket := b
    flMinBps := flMinB mkt ln b
    flMaxBps := flMaxB mkt ln b
    rateMin := f2 (rateMin1 mkt ln b)
    repRate := f2 (repRateF mkt ln b)
    rateMax := f2 (rateMax2 mkt ln b)
    provPct := f2 (provPctB ln b)
    be := beRepOf mkt ln b }

/-- The full result list, in the fixed bucket order of `BUCKETS`
(line 288). -/
def computeRows (mkt : MarketInputs) (ln : LoanInputs) : List Row :=
  [bucketRow mkt ln .low, bucketRow mkt ln .medium, bucketRow mkt ln .high]

/-! ## Input parsing (lines 400-429)

Every numeric field is read with `parseFloat(...) || 0` or
`parseInt(...) || d`: a missing, empty or unparseable field silently
becomes the default, and computation proceeds.  `none` models a field that
is missing or does not parse. -/

/-- `parseFloat(x) || 0` (note `0 || 0` is also `0`). -/
def parseNum (v : Option ℚ) : ℚ := v.getD 0

/-- `parseInt(x) || d` (`NaN` and `0` both fall back to `d`). -/
def parseIntOr (v : Option ℤ) (d : ℤ) : ℤ :=
  match v with
  | none => d
  | some x => if x = 0 then d else x

/-- The raw form state: every input field as read from the DOM. -/
structure RawForm where
  oibor : Option ℚ
  cof : Option ℚ
  targetNim : Option ℚ
  opex : Option ℚ
  feesDefault : Option ℚ
  upfrontCost : Option ℚ
  product : Product
  industry : Industry
  malaa : Option ℤ
  stage : Option ℤ
  tenor : Option ℤ
  loanQuantum : Option ℚ
  ltv : Option ℚ
  sales : Option ℚ

/-- The parse of the form performed at lines 402-427 (with the defaults of
`|| 0` resp. `|| 1` for the stage). -/
def parseForm (fm : RawForm) : MarketInputs × LoanInputs :=
  (⟨parseNum fm.oibor, parseNum fm.cof, parseNum fm.targetNim,
    parseNum fm.opex, parseNum fm.feesDefault, parseNum fm.upfrontCost⟩,
   ⟨fm.product, fm.industry, parseIntOr fm.malaa 0, parseIntOr fm.stage 1,
    parseIntOr fm.tenor 0, parseNum fm.loanQuantum, parseNum fm.ltv,
    parseNum fm.sales⟩)

/-- The whole click handler: parse, then price every bucket. -/
def computeFromForm (fm : RawForm) : List Row :=
  computeRows (parseForm fm).1 (parseForm fm).2

/-! ## Basic lemmas about the helpers -/

lemma le_clamp (x lo hi : ℚ) : lo ≤ clamp x lo hi := le_max_left _ _

lemma clamp_le (x : ℚ) {lo hi : ℚ} (h : lo ≤ hi) : clamp x lo hi ≤ hi :=
  max_le h (min_le_right _ _)

lemma clamp_mono {x y : ℚ} (lo hi : ℚ) (h : x ≤ y) :
    clamp x lo hi ≤ clamp y lo hi :=
  max_le_max le_rfl (min_le_min h le_rfl)

lemma clamp_le_self {x lo : ℚ} (hi : ℚ) (hx : lo ≤ x) : clamp x lo hi ≤ x :=
  max_le hx (min_le_left _ _)

lemma f2_sub_le (x : ℚ) : x - 1/200 ≤ f2 x := by
  have h := Int.lt_floor_add_one (100 * x + 1/2)
  unfold f2
  rw [le_div_iff₀ (by norm_num : (0:ℚ) < 100)]
  linarith

lemma f2_le_add (x : ℚ) : f2 x ≤ x + 1/200 := by
  have h := Int.floor_le (100 * x + 1/2)
  unfold f2
  rw [div_le_iff₀ (by norm_num : (0:ℚ) < 100)]
  linarith

lemma f2_lb_of_le {x : ℚ} (h : 1/40 ≤ x) : 1/40 ≤ f2 x := by
  have h3 : (3:ℤ) ≤ ⌊100 * x + 1/2⌋ := Int.le_floor.mpr (by push_cast; linarith)
  have h3q : (3:ℚ) ≤ ((⌊100 * x + 1/2⌋ : ℤ) : ℚ) := by exact_mod_cast h3
  unfold f2
  rw [le_div_iff₀ (by norm_num : (0:ℚ) < 100)]
  linarith

lemma f2_ub_of_le {x : ℚ} (h : x ≤ 42) : f2 x ≤ 42 := by
  have h4 : ⌊100 * x + 1/2⌋ < 4201 := Int.floor_lt.mpr (by push_cast; linarith)
  have h4q : ((⌊100 * x + 1/2⌋ : ℤ) : ℚ) ≤ 4200 := by
    exact_mod_cast Int.lt_add_one_iff.mp h4
  unfold f2
  rw [div_le_iff₀ (by norm_num : (0:ℚ) < 100)]
  linarith

lemma f2_mono {x y : ℚ} (h : x ≤ y) : f2 x ≤ f2 y := by
  have hf : ⌊100 * x + 1/2⌋ ≤ ⌊100 * y + 1/2⌋ := Int.floor_mono (by linarith)
  unfold f2
  have : ((⌊100 * x + 1/2⌋ : ℤ) : ℚ) ≤ ((⌊100 * y + 1/2⌋ : ℤ) : ℚ) := by
    exact_mod_cast hf
  linarith

lemma productFactor_pos (p : Product) : 0 < productFactor p := by
  cases p <;> norm_num [productFactor]

lemma industryFactor_pos (ind : Industry) : 0 < industryFactor ind := by
  cases ind <;> norm_num [industryFactor]

lemma ltvFactor_nonneg (l : ℚ) : 0 ≤ ltvFactor l :=
  le_trans (by norm_num) (le_clamp _ _ _)

lemma wcsFactor_nonneg (wc sales : ℚ) : 0 ≤ wcsFactor wc sales := by
  unfold wcsFactor
  split_ifs
  · norm_num
  · exact le_trans (by norm_num) (le_clamp _ _ _)

lemma pdInterp_nonneg (r : ℚ) : 0 ≤ pdInterp r := by
  unfold pdInterp
  split_ifs with h1 h2 h3 h4
  · norm_num
  · norm_num
  · have hd : 0 ≤ (r - 0.4) / (1.0 - 0.4) :=
      div_nonneg (by push_neg at h1; linarith) (by norm_num)
    nlinarith [hd]
  · have hd : 0 ≤ (r - 1.0) / (2.0 - 1.0) :=
      div_nonneg (by push_neg at h3; linarith) (by norm_num)
    nlinarith [hd]
  · have hd : 0 ≤ (r - 2.0) / (3.5 - 2.0) :=
      div_nonneg (by push_neg at h4; linarith) (by norm_num)
    nlinarith [hd]

lemma pdFromRisk_bounds (r : ℚ) (st : ℤ) :
    0.10 ≤ pdFromRisk r st ∧ pdFromRisk r st ≤ 60.0 :=
  ⟨le_clamp _ _ _, clamp_le _ (by norm_num)⟩

lemma lgdFromProductLtv_bounds (p : Product) (ltv : Option ℚ) (fund : Bool) :
    25.0 ≤ lgdFromProductLtv p ltv fund ∧ lgdFromProductLtv p ltv fund ≤ 70.0 :=
  ⟨le_clamp _ _ _, clamp_le _ (by norm_num)⟩

lemma provPctB_bounds (ln : LoanInputs) (b : Bucket) :
    0.025 ≤ provPctB ln b ∧ provPctB ln b ≤ 42.0 := by
  obtain ⟨hpd1, hpd2⟩ := pdFromRisk_bounds (riskBucket ln b) ln.stage
  obtain ⟨hl1, hl2⟩ := lgdFromProductLtv_bounds ln.product
    (if productIsFund ln.product then some ln.ltvInput else some 60.0)
    (productIsFund ln.product)
  have hpd1' : 0.10 ≤ pdPctB ln b := hpd1
  have hpd2' : pdPctB ln b ≤ 60.0 := hpd2
  have hl1' : 25.0 ≤ lgdPctB ln := hl1
  have hl2' : lgdPctB ln ≤ 70.0 := hl2
  have hx1 : (1/40 : ℚ) ≤ pdPctB ln b * (lgdPctB ln / 100) := by
    have := mul_le_mul hpd1' (by linarith : (25:ℚ)/100 ≤ lgdPctB ln / 100)
      (by norm_num) (by linarith)
    linarith [this]
  have hx2 : pdPctB ln b * (lgdPctB ln / 100) ≤ 42 := by
    have := mul_le_mul hpd2' (by linarith : lgdPctB ln / 100 ≤ (70:ℚ)/100)
      (by linarith) (by norm_num)
    linarith [this]
  constructor
  · have := f2_lb_of_le hx1
    calc (0.025 : ℚ) = 1/40 := by norm_num
      _ ≤ f2 (pdPctB ln b * (lgdPctB ln / 100)) := this
      _ = provPctB ln b := rfl
  · have := f2_ub_of_le hx2
    calc provPctB ln b = f2 (pdPctB ln b * (lgdPctB ln / 100)) := rfl
      _ ≤ 42 := this
      _ = 42.0 := by norm_num

lemma halfBandB_pos (b : Bucket) : 0 < halfBandB b := by
  cases b <;> norm_num [halfBandB, bucketBandBps]

lemma repRateF_ge_five (mkt : MarketInputs) (ln : LoanInputs) (b : Bucket) :
    5.00 ≤ repRateF mkt ln b := by
  have h1 : (5.00:ℚ) ≤ rateMin0 mkt ln b := le_clamp _ _ _
  have h2 : (5.00:ℚ) ≤ rateMax0 mkt ln b := le_clamp _ _ _
  have h0 : (5.00:ℚ) ≤ repRate0 mkt ln b := by
    unfold repRate0; linarith
  have hr1 : (5.00:ℚ) ≤ repRate1 mkt ln b := by
    unfold repRate1
    split_ifs
    · exact le_trans h0 (le_max_left _ _)
    · exact h0
  exact le_trans hr1 (le_max_left _ _)

lemma rateMin1_le_repRateF (mkt : MarketInputs) (ln : LoanInputs) (b : Bucket) :
    rateMin1 mkt ln b ≤ repRateF mkt ln b := by
  unfold rateMin1 clamp
  apply max_le (repRateF_ge_five mkt ln b)
  exact le_trans (min_le_left _ _) (by linarith [halfBandB_pos b])

lemma repRateF_le_rateMax1 (mkt : MarketInputs) (ln : LoanInputs) (b : Bucket)
    (h12 : repRateF mkt ln b ≤ 12.00) :
    repRateF mkt ln b ≤ rateMax1 mkt ln b := by
  unfold rateMax1 clamp
  refine le_trans ?_ (le_max_right _ _)
  exact le_min (by linarith [halfBandB_pos b]) h12

lemma repRateF_le_rateMax2 (mkt : MarketInputs) (ln : LoanInputs) (b : Bucket)
    (h12 : repRateF mkt ln b ≤ 12.00) :
    repRateF mkt ln b ≤ rateMax2 mkt ln b := by
  have hA := repRateF_le_rateMax1 mkt ln b h12
  unfold rateMax2
  split_ifs with hc
  · unfold clamp
    refine le_trans ?_ (le_max_right _ _)
    exact le_min (by linarith) h12
  · exact hA

/-! ## Claim theorems -/

/-- C1: Target-NIM floor.  For every pricing bucket of every request, the
final representative rate is lifted to at least
`requiredRate = f2(costOfFunds + provisionRate + operatingExpense -
feeYield + targetNIM)` (lines 477-478), so the bucket's displayed
representative rate satisfies
`repRate + feeYield - costOfFunds - provisionRate - operatingExpense ≥
targetNIM - ε` with rounding tolerance `ε = 1/100` (two `f2` roundings of
at most 1/200 each). -/
theorem C1_target_nim_floor (mkt : MarketInputs) (ln : LoanInputs) (b : Bucket) :
    requiredRate mkt ln b ≤ repRateF mkt ln b ∧
    mkt.targetNimPct - 1/100 ≤
      (bucketRow mkt ln b).repRate + feesFor mkt ln.product - mkt.cofPct -
        provPctB ln b - mkt.opexPct := by
  have hlift : requiredRate mkt ln b ≤ repRateF mkt ln b := le_max_right _ _
  have h1 : (bucketRow mkt ln b).repRate = f2 (repRateF mkt ln b) := rfl
  have h2 := f2_sub_le (repRateF mkt ln b)
  have h3 := f2_sub_le (mkt.cofPct + provPctB ln b + mkt.opexPct -
    feesFor mkt ln.product + mkt.targetNimPct)
  have h4 : requiredRate mkt ln b = f2 (mkt.cofPct + provPctB ln b +
      mkt.opexPct - feesFor mkt ln.product + mkt.targetNimPct) := rfl
  refine ⟨hlift, ?_⟩
  rw [h1]
  rw [h4] at hlift
  linarith

/-- C2 counterexample: at a valid request (Asset Backed Loan,
Construction, credit score 300, IFRS stage 3, LTV 100, default market
assumptions) the Medium bucket's required rate (23.92%) exceeds the 12%
market cap, so the displayed `repRate` (23.92) exceeds the displayed
`rateMax` (12.00): the claimed `repRate ≤ rateMax` is false. -/
theorem C2_band_ordering_counterexample :
    (bucketRow ⟨4.10, 5.00, 2.50, 0.40, 0.40, 0.50⟩
        ⟨.assetBackedLoan, .construction, 300, 3, 36, 100000, 100, 0⟩
        .medium).rateMax <
      (bucketRow ⟨4.10, 5.00, 2.50, 0.40, 0.40, 0.50⟩
        ⟨.assetBackedLoan, .construction, 300, 3, 36, 100000, 100, 0⟩
        .medium).repRate := by
  norm_num [bucketRow, flMinB, flMaxB, rateMin1, rateMax1, rateMax2, repRateF,
    repRate1, repRate0, rateMin0, rateMax0, requiredRate, provPctB, pdPctB,
    lgdPctB, riskBucket, riskBase, compositeRisk, productFactor, industryFactor,
    malaaFactor, ltvFactor, wcsFactor, productIsFund, wcOmrOf, salesOmrOf,
    feesFor, floorsB, baseBpsB, spreadMinB, spreadMaxB, bucketMult,
    bucketBandBps, bucketFloorBps, malaaFloorBps, malaaLabel,
    industryFloorAddon, productFloorAddon, baseSpreadFromRisk,
    minCoreSpreadBps, halfBandB, jround, f2, clamp, pdFromRisk, pdInterp,
    lgdFromProductLtv, max_def, min_def,
    (show Product.assetBackedLoan ≠ Product.termLoan by decide),
    (show Product.assetBackedLoan ≠ Product.exportFinance by decide)]

/-- C2 as amended: for every computed result row, the displayed spread
bounds satisfy `flMinBps < flMaxBps` (indeed `flMaxBps ≥ flMinBps + 10`,
line 490) and `rateMin ≤ repRate` always; `repRate ≤ rateMax` holds
whenever the lifted representative rate does not exceed the 12% market
cap (when it does, `rateMax` stays clamped at 12 while `repRate` is left
above it, lines 478-486). -/
theorem C2_band_ordering_amended (mkt : MarketInputs) (ln : LoanInputs)
    (b : Bucket) :
    (bucketRow mkt ln b).flMinBps < (bucketRow mkt ln b).flMaxBps ∧
    (bucketRow mkt ln b).rateMin ≤ (bucketRow mkt ln b).repRate ∧
    (repRateF mkt ln b ≤ 12.00 →
      (bucketRow mkt ln b).repRate ≤ (bucketRow mkt ln b).rateMax) := by
  refine ⟨?_, ?_, ?_⟩
  · show flMinB mkt ln b < flMaxB mkt ln b
    have h : flMinB mkt ln b + 10 ≤ flMaxB mkt ln b := le_max_right _ _
    linarith
  · exact f2_mono (rateMin1_le_repRateF mkt ln b)
  · intro h12
    exact f2_mono (repRateF_le_rateMax2 mkt ln b h12)

/-- Witness for C2 as amended at the spec's concrete scenario (Term Loan,
Manufacturing, score 750, LTV 70, default market assumptions): the Medium
bucket satisfies all three ordering facts. -/
theorem C2_band_ordering_witness :
    (bucketRow ⟨4.10, 5.00, 2.50, 0.40, 0.40, 0.50⟩
        ⟨.termLoan, .manufacturing, 750, 1, 36, 100000, 70, 0⟩
        .medium).flMinBps <
      (bucketRow ⟨4.10, 5.00, 2.50, 0.40, 0.40, 0.50⟩
        ⟨.termLoan, .manufacturing, 750, 1, 36, 100000, 70, 0⟩
        .medium).flMaxBps ∧
    (bucketRow ⟨4.10, 5.00, 2.50, 0.40, 0.40, 0.50⟩
        ⟨.termLoan, .manufacturing, 750, 1, 36, 100000, 70, 0⟩
        .medium).rateMin ≤
      (bucketRow ⟨4.10, 5.00, 2.50, 0.40, 0.40, 0.50⟩
        ⟨.termLoan, .manufacturing, 750, 1, 36, 100000, 70, 0⟩
        .medium).repRate ∧
    (bucketRow ⟨4.10, 5.00, 2.50, 0.40, 0.40, 0.50⟩
        ⟨.termLoan, .manufacturing, 750, 1, 36, 100000, 70, 0⟩
        .medium).repRate ≤
      (bucketRow ⟨4.10, 5.00, 2.50, 0.40, 0.40, 0.50⟩
        ⟨.termLoan, .manufacturing, 750, 1, 36, 100000, 70, 0⟩
        .medium).rateMax := by
  obtain ⟨ha, hb, hc⟩ := C2_band_ordering_amended
    ⟨4.10, 5.00, 2.50, 0.40, 0.40, 0.50⟩
    ⟨.termLoan, .manufacturing, 750, 1, 36, 100000, 70, 0⟩ .medium
  refine ⟨ha, hb, hc ?_⟩
  norm_num [repRateF, repRate1, repRate0, rateMin0, rateMax0, requiredRate,
    provPctB, pdPctB, lgdPctB, riskBucket, riskBase, compositeRisk,
    productFactor, industryFactor, malaaFactor, ltvFactor, wcsFactor,
    productIsFund, wcOmrOf, salesOmrOf, feesFor, floorsB, baseBpsB,
    spreadMinB, spreadMaxB, bucketMult, bucketBandBps, bucketFloorBps,
    malaaFloorBps, malaaLabel, industryFloorAddon, productFloorAddon,
    baseSpreadFromRisk, minCoreSpreadBps, jround, f2, clamp, pdFromRisk,
    pdInterp, lgdFromProductLtv, max_def, min_def,
    (show Product.termLoan ≠ Product.exportFinance by decide)]

/-- C3 as amended: in `fundFirstYearMetrics`, a zero representative rate
makes `i = 0` and triggers the early return `[0.0, 0.0, 1.0, 0.0]`
(line 309): no division by zero occurs, but the EMI component is 0 — the
straight-line `P / n` fallback claimed by the spec is not implemented. -/
theorem C3_zero_rate_amended (P : ℚ) (tenorM : ℤ)
    (feesPct cofPct provPct opexPct : ℚ) :
    fundFirstYearMetrics P tenorM 0 feesPct cofPct provPct opexPct =
      ⟨0, 0, 1, 0⟩ := by
  simp only [fundFirstYearMetrics]
  split_ifs with h
  · rfl
  · exact absurd (Or.inl (by norm_num)) h

/-- C3 counterexample: at `P = 1200`, `n = 12`, `repRate = 0` the claimed
straight-line fallback would give `EMI = P / n = 100`, but
`fundFirstYearMetrics` returns `EMI = 0` (early return of line 309). -/
theorem C3_zero_rate_counterexample :
    (fundFirstYearMetrics 1200 12 0 0 5.00 0.50 0.40).emi = 0 ∧
    (1200 : ℚ) / 12 = 100 ∧
    (fundFirstYearMetrics 1200 12 0 0 5.00 0.50 0.40).emi ≠ (1200 : ℚ) / 12 := by
  have h : fundFirstYearMetrics 1200 12 0 0 5.00 0.50 0.40 =
      ⟨0, 0, 1, 0⟩ := by
    simp only [fundFirstYearMetrics]
    split_ifs with hc
    · rfl
    · exact absurd (Or.inl (by norm_num)) hc
  rw [h]
  norm_num

/-- C4 as amended: a non-positive margin yields the "not within tenor"
sentinel from both `utilMetrics` (line 372) and `utilBe` (line 542), and
`utilBe` (used for the min/max-rate breakevens) implements the claimed
rule `months = ceil((upfront/100·limit)/(NII/12))` capped by the tenor —
but `utilMetrics`, which produces the representative breakeven, never
compares its month count against the tenor (it takes no tenor argument,
lines 359-373). -/
theorem C4_util_breakeven_amended (limit : ℚ) (ind : Industry)
    (rate feesPct cofPct provPct opexPct upfrontCostPct : ℚ) (tenor : ℤ) :
    (rate + feesPct - (cofPct + provPct + opexPct) ≤ 0 →
      (utilMetrics limit ind rate feesPct cofPct provPct opexPct
        upfrontCostPct).be = BE.notWithinTenor) ∧
    (rate + feesPct - (cofPct + provPct + opexPct) ≤ 0 ∨ limit ≤ 0 →
      utilBe limit ind feesPct cofPct provPct opexPct upfrontCostPct tenor
        rate = BE.notWithinTenor) ∧
    (0 < rate + feesPct - (cofPct + provPct + opexPct) → 0 < limit →
      utilBe limit ind feesPct cofPct provPct opexPct upfrontCostPct tenor
          rate =
        if ⌈(upfrontCostPct / 100 * limit) /
            ((rate + feesPct - (cofPct + provPct + opexPct)) / 100 *
              (limit * uMedMap ind) / 12)⌉ ≤ tenor
        then BE.months ⌈(upfrontCostPct / 100 * limit) /
            ((rate + feesPct - (cofPct + provPct + opexPct)) / 100 *
              (limit * uMedMap ind) / 12)⌉
        else BE.notWithinTenor) := by
  refine ⟨?_, ?_, ?_⟩
  · intro h
    simp only [utilMetrics]
    split_ifs with hc
    · exact absurd hc.1 (not_lt.mpr h)
    · rfl
  · intro h
    simp only [utilBe]
    split_ifs
    rfl
  · intro h1 h2
    have hneg : ¬(rate + feesPct - (cofPct + provPct + opexPct) ≤ 0 ∨
        limit ≤ 0) := by
      push_neg
      exact ⟨h1, h2⟩
    simp only [utilBe]
    rw [if_neg hneg]

/-- C4 counterexample: a Trading-industry utilization loan with a thin
positive margin of 0.01% (rate 5.01, fees 0, funding 5.00, provision 0,
opex 0) and 0.50% upfront cost gives a representative breakeven of
`ceil(500 / (6.5/12)) = 924` months from `utilMetrics` — a numeric month,
although 924 exceeds even the maximum valid tenor of 360, where the claim
requires the sentinel. -/
theorem C4_util_breakeven_counterexample :
    (utilMetrics 100000 .trading 5.01 0 5.00 0 0 0.50).be = BE.months 924 ∧
    ¬((924:ℤ) ≤ 360) := by
  constructor
  · norm_num [utilMetrics, uMedMap, f2, max_def, min_def, Int.lt_ceil,
      Int.ceil_eq_iff]
  · norm_num

/-- Witness for C4 as amended: a negative margin (rate 4.00 vs funding
5.00) yields the sentinel from both functions, and at rate 8.00 `utilBe`
returns the tenor-capped month count `ceil(500/162.5) = 4`. -/
theorem C4_util_breakeven_witness :
    (utilMetrics 100000 .trading 4.00 0 5.00 0 0 0.50).be =
      BE.notWithinTenor ∧
    utilBe 100000 .trading 0 5.00 0 0 0.50 36 4.00 = BE.notWithinTenor ∧
    utilBe 100000 .trading 0 5.00 0 0 0.50 36 8.00 = BE.months 4 := by
  refine ⟨?_, ?_, ?_⟩
  · exact (C4_util_breakeven_amended 100000 .trading 4.00 0 5.00 0 0 0.50
      36).1 (by norm_num)
  · exact (C4_util_breakeven_amended 100000 .trading 4.00 0 5.00 0 0 0.50
      36).2.1 (Or.inl (by norm_num))
  · have h := (C4_util_breakeven_amended 100000 .trading 8.00 0 5.00 0 0
      0.50 36).2.2 (by norm_num) (by norm_num)
    rw [h]
    norm_num [uMedMap, Int.ceil_le, Int.ceil_eq_iff]

/-- C5: Composite-risk boundedness.  For all finite inputs (any product,
industry, credit score, LTV or working-capital/sales values, and any
bucket), the composite risk score lies in [0.4, 3.5], both for the base
score (`compositeRisk`, line 243) and for each bucket-scaled score
(`riskB`, line 448). -/
theorem C5_composite_risk_bounded :
    (∀ (p : Product) (ind : Industry) (malaa ltv wc sales : ℚ) (fund : Bool),
      0.4 ≤ compositeRisk p ind malaa ltv wc sales fund ∧
        compositeRisk p ind malaa ltv wc sales fund ≤ 3.5) ∧
    ∀ (ln : LoanInputs) (b : Bucket),
      0.4 ≤ riskBucket ln b ∧ riskBucket ln b ≤ 3.5 := by
  constructor
  · intro p ind malaa ltv wc sales fund
    exact ⟨le_clamp _ _ _, clamp_le _ (by norm_num)⟩
  · intro ln b
    exact ⟨le_clamp _ _ _, clamp_le _ (by norm_num)⟩

/-- C6: Borrower-score monotonicity.  For fixed product, industry and
collateral/utilization inputs, increasing the borrower credit score never
increases the composite risk score: the `malaaFactor` (line 225) is
non-increasing in the score and the composite (line 243) is a product of
non-negative factors followed by a clamp. -/
theorem C6_borrower_score_monotone (p : Product) (ind : Industry)
    (ltv wc sales : ℚ) (fund : Bool) {s1 s2 : ℚ} (h : s1 ≤ s2) :
    compositeRisk p ind s2 ltv wc sales fund ≤
      compositeRisk p ind s1 ltv wc sales fund := by
  have hm : malaaFactor s2 ≤ malaaFactor s1 := by
    apply clamp_mono
    have : (s1 - 300) * (0.90 / 600) ≤ (s2 - 300) * (0.90 / 600) := by
      apply mul_le_mul_of_nonneg_right (by linarith) (by norm_num)
    linarith
  have h0 : (0:ℚ) ≤ productFactor p * industryFactor ind :=
    mul_nonneg (productFactor_pos p).le (industryFactor_pos ind).le
  have hrf : (0:ℚ) ≤ (if fund then ltvFactor ltv else wcsFactor wc sales) := by
    split_ifs
    · exact ltvFactor_nonneg ltv
    · exact wcsFactor_nonneg wc sales
  unfold compositeRisk
  apply clamp_mono
  exact mul_le_mul_of_nonneg_right (mul_le_mul_of_nonneg_left hm h0) hrf

/-- Witness for C6 at a concrete input: raising the credit score from 700
to 800 does not raise the composite risk for a Term Loan to a
manufacturer at LTV 70. -/
theorem C6_borrower_score_monotone_witness :
    (700:ℚ) ≤ 800 ∧
    compositeRisk .termLoan .manufacturing 800 70 0 0 true ≤
      compositeRisk .termLoan .manufacturing 700 70 0 0 true :=
  ⟨by norm_num,
   C6_borrower_score_monotone .termLoan .manufacturing 70 0 0 true
     (by norm_num)⟩

/-- C9 (implicit): provision-rate boundedness.  `pdFromRisk` always lands
in [0.10, 60.0] (final clamp, line 266) and `lgdFromProductLtv` in
[25.0, 70.0] (line 277), for every risk score, stage, product, LTV
(including the NaN LTV modelled as `none`); hence the per-bucket provision
rate `pd * (lgd/100)` used in pricing (line 453) is always in
[0.025, 42.0]. -/
theorem C9_provision_bounded :
    (∀ (r : ℚ) (st : ℤ), 0.10 ≤ pdFromRisk r st ∧ pdFromRisk r st ≤ 60.0) ∧
    (∀ (p : Product) (ltv : Option ℚ) (fund : Bool),
      25.0 ≤ lgdFromProductLtv p ltv fund ∧
        lgdFromProductLtv p ltv fund ≤ 70.0) ∧
    ∀ (ln : LoanInputs) (b : Bucket),
      0.025 ≤ provPctB ln b ∧ provPctB ln b ≤ 42.0 :=
  ⟨pdFromRisk_bounds, lgdFromProductLtv_bounds, provPctB_bounds⟩

lemma annuity_key (i : ℚ) (hi : 0 ≤ i) (n : ℕ) :
    1 ≤ (1 + i) ^ n ∧ 1 + (n : ℚ) * i ≤ (1 + i) ^ n ∧
      (1 + i) ^ n - 1 ≤ (n : ℚ) * i * (1 + i) ^ n := by
  induction n with
  | zero => norm_num
  | succ n ih =>
    obtain ⟨h1, h2, h3⟩ := ih
    have hq0 : (0:ℚ) ≤ (1 + i) ^ n := le_trans zero_le_one h1
    have hp : (1 + i) ^ (n + 1) = (1 + i) ^ n * (1 + i) := pow_succ _ _
    have hn0 : (0:ℚ) ≤ (n : ℚ) := Nat.cast_nonneg n
    refine ⟨?_, ?_, ?_⟩
    · rw [hp]; nlinarith
    · rw [hp]; push_cast; nlinarith
    · rw [hp]; push_cast
      nlinarith [h3, hq0, hn0, hi,
        mul_nonneg (mul_nonneg hn0 (mul_nonneg hi hi)) hq0,
        mul_nonneg (mul_nonneg hi hi) hq0, mul_nonneg hi hq0]

/-- C7: EMI consistency.  For a positive rate, principal and tenor, the
annuity EMI of line 311, `P·i·(1+i)^n / ((1+i)^n − 1)` with
`i = repRate/100/12`, satisfies `EMI · n ≥ P`: the amortization schedule
repays at least the principal. -/
theorem C7_emi_consistency (P repRate : ℚ) (n : ℕ)
    (hr : 0 < repRate) (hP : 0 < P) (hn : 0 < n) :
    P ≤ annuityEMI P (repRate / 100 / 12) n * (n : ℚ) := by
  set i := repRate / 100 / 12 with hidef
  have hi : 0 < i := by rw [hidef]; positivity
  obtain ⟨h1, h2, h3⟩ := annuity_key i hi.le n
  have hn1 : (1:ℚ) ≤ (n : ℚ) := by exact_mod_cast hn
  have hq : 1 < (1 + i) ^ n := by nlinarith
  have hd : 0 < (1 + i) ^ n - 1 := by linarith
  unfold annuityEMI
  rw [div_mul_eq_mul_div, le_div_iff₀ hd]
  nlinarith [mul_le_mul_of_nonneg_left h3 hP.le]

/-- Witness for C7 at `P = 1200`, annual rate 12 percent, 12 months. -/
theorem C7_emi_consistency_witness :
    (0:ℚ) < 12 ∧ (0:ℚ) < 1200 ∧ 0 < 12 ∧
    (1200:ℚ) ≤ annuityEMI 1200 (12 / 100 / 12) 12 * ((12:ℕ) : ℚ) :=
  ⟨by norm_num, by norm_num, by norm_num,
   C7_emi_consistency 1200 12 12 (by norm_num) (by norm_num) (by norm_num)⟩

/-- C8 as amended: the compute handler performs no validation at all.
Every field is read through `parseFloat(...) || 0` / `parseInt(...) || d`
(lines 402-427): a missing or unparseable principal is priced exactly as
an explicit 0, a missing stage exactly as stage 1, and every record —
including out-of-domain ones — always produces a complete three-bucket
result; no error path exists. -/
theorem C8_no_validation_amended (o c t x fd uc : Option ℚ) (p : Product)
    (ind : Industry) (m st tn : Option ℤ) (q l s : Option ℚ) :
    (computeFromForm ⟨o, c, t, x, fd, uc, p, ind, m, st, tn, q, l, s⟩).length
        = 3 ∧
    computeFromForm ⟨o, c, t, x, fd, uc, p, ind, m, st, tn, none, l, s⟩ =
      computeFromForm ⟨o, c, t, x, fd, uc, p, ind, m, st, tn, some 0, l, s⟩ ∧
    computeFromForm ⟨o, c, t, x, fd, uc, p, ind, m, none, tn, q, l, s⟩ =
      computeFromForm ⟨o, c, t, x, fd, uc, p, ind, m, some 1, tn, q, l, s⟩ :=
  ⟨rfl, rfl, rfl⟩

/-- C8 counterexample: a Term-Loan record with the loan quantum missing,
credit score missing, stage missing, annual sales missing and tenor 0
(outside the domain [6, 360]) is not rejected: the handler silently
defaults the fields (`quantum = 0`, `score = 0`, `stage = 1`, `tenor = 0`)
and returns a full three-bucket pricing result. -/
theorem C8_validation_counterexample :
    (computeFromForm ⟨some 4.10, some 5.00, some 2.50, some 0.40, some 0.40,
        some 0.50, .termLoan, .manufacturing, none, none, some 0, none,
        some 70, none⟩).length = 3 ∧
    computeFromForm ⟨some 4.10, some 5.00, some 2.50, some 0.40, some 0.40,
        some 0.50, .termLoan, .manufacturing, none, none, some 0, none,
        some 70, none⟩ =
      computeRows ⟨4.10, 5.00, 2.50, 0.40, 0.40, 0.50⟩
        ⟨.termLoan, .manufacturing, 0, 1, 0, 0, 70, 0⟩ :=
  ⟨rfl, rfl⟩

/-- C10 (implicit): stage monotonicity of PD.  For any fixed risk score,
the PD is monotone in the IFRS-9 stage: stage 2 multiplies the
interpolated PD by 2.5 and stage 3 by 6.0 (lines 264-265) before the final
clamp to [0.10, 60.0]. -/
theorem C10_pd_stage_monotone (r : ℚ) :
    pdFromRisk r 1 ≤ pdFromRisk r 2 ∧ pdFromRisk r 2 ≤ pdFromRisk r 3 := by
  have h0 : 0 ≤ pdInterp r := pdInterp_nonneg r
  have e1 : pdFromRisk r 1 = clamp (pdInterp r) 0.10 60.0 := by
    simp [pdFromRisk]
  have e2 : pdFromRisk r 2 = clamp (pdInterp r * 2.5) 0.10 60.0 := by
    simp [pdFromRisk]
  have e3 : pdFromRisk r 3 = clamp (pdInterp r * 6.0) 0.10 60.0 := by
    simp [pdFromRisk]
  rw [e1, e2, e3]
  exact ⟨clamp_mono _ _ (by nlinarith), clamp_mono _ _ (by nlinarith)⟩

end Pricing
